import Mathlib

/-!
# Study-room booking client

A shallow embedding of the two React components of the repository:

* `Home` (src/src/Home.js): the booking screen, with its role filter
  `filteredRooms`, the derived `selectedRoom`, and the handlers
  `handleRoomClick`, `handleTimeSlotClick`, `handleConfirmBooking`,
  `handleCancelBooking`, `handleCloseSnackbar`;
* `LoginPage` (src/src/LoginPage.jsx): `loginApiCall`, `handleSubmit` and the
  choice of the rendered screen.

Component state (the `useState` cells) is an explicit record and every handler
is a function from state to state.  A handler that awaits a network answer
takes that answer as an argument, so one handler run is one atomic step.
Room identifiers are non-null values, strings are Lean strings, and
`toLowerCase` is the case mapping on the ASCII letters (the only letters of
the two role names).
-/

namespace StudyRoomBooking

/-! ## Data model -/

/-- One entry of `room.availability`. -/
structure AvailabilitySlot where
  timeSlot : String
  isBooked : Bool
deriving DecidableEq, Repr

/-- A room as delivered by `GET /roomList`; `role` may be absent. -/
structure Room where
  id : Nat
  name : String
  role : Option String
  availability : List AvailabilitySlot
deriving DecidableEq, Repr

/-- The fields the client reads from a JSON object answered by `POST /login`:
on success the object is the user, on failure it carries `message`. -/
structure JsonObject where
  id : Option String
  role : Option String
  message : Option String
deriving DecidableEq, Repr

/-- The authenticated user object handed from `LoginPage` to `Home`. -/
abbrev User := JsonObject

/-- The `severity` of a snackbar. -/
inductive Severity where
  | success
  | error
  | warning
deriving DecidableEq, Repr

/-- The `snackbar` state cell: `{ open, message, severity }`. -/
structure Snackbar where
  isOpen : Bool
  message : String
  severity : Severity
deriving DecidableEq, Repr

/-- An HTTP response as the client observes it: status code and body text. -/
structure Response where
  status : Nat
  text : String
deriving DecidableEq, Repr

/-- The `response.ok` flag of the fetch API: the status is in 200..299. -/
def Response.ok (response : Response) : Bool :=
  decide (200 ≤ response.status) && decide (response.status ≤ 299)

/-- How an awaited `fetch` ends: the promise rejects with an error message
(transport failure) or resolves with a response. -/
inductive FetchResult where
  | rejected (message : String)
  | resolved (response : Response)
deriving DecidableEq, Repr

/-! ## Strings -/

/-- The method `toLowerCase` of a string, on ASCII letters. No character
outside A-Z lowers to a letter of "professor" or "student", so comparing the
results with these two words is not affected by the other characters. -/
def toLowerCase (s : String) : String :=
  ⟨s.data.map Char.toLower⟩

/-- Truthiness of a possibly absent string: absent and empty are falsy. -/
def truthy : Option String → Bool
  | none => false
  | some s => s != ""

/-- Template-literal rendering of a nullable string: null prints as "null". -/
def templateText : Option String → String
  | none => "null"
  | some s => s

/-- The text `part` occurs inside `message`. -/
def containsText (message part : String) : Prop :=
  part.data <:+: message.data

instance containsTextDecidable (message part : String) :
    Decidable (containsText message part) :=
  inferInstanceAs (Decidable (part.data <:+: message.data))

/-! ## Home: role filter -/

/-- Module constant `professor` of Home.js. -/
def professor : String := "professor"

/-- Module constant `student` of Home.js. -/
def student : String := "student"

/-- The role of the current user, `user?.role || 'student'`. -/
def userRole (user : Option User) : String :=
  match user with
  | none => student
  | some u =>
    match u.role with
    | none => student
    | some r => if r = "" then student else r

/-- The callback of `rooms.filter` in `filteredRooms` (Home.js 37-45). -/
def roomVisible (userRole : String) (room : Room) : Bool :=
  match room.role with
  | none => false
  | some role =>
    if role = "" then false
    else if toLowerCase userRole = toLowerCase professor then
      decide (toLowerCase role = toLowerCase professor)
        || decide (toLowerCase role = toLowerCase student)
    else decide (toLowerCase role = toLowerCase student)

/-- The rooms shown to the user: `rooms.filter(...)`. -/
def filteredRooms (rooms : List Room) (userRole : String) : List Room :=
  rooms.filter (roomVisible userRole)

/-! ### The rule table of the specification -/

/-- Two character sequences agree position by position up to letter case. -/
def charsMatch : List Char → List Char → Bool
  | [], [] => true
  | a :: as, b :: bs => (a.toLower == b.toLower) && charsMatch as bs
  | _, _ => false

/-- Case-insensitive equality of two strings, as the rule table words it. -/
def equalsIgnoringCase (a b : String) : Bool :=
  charsMatch a.data b.data

/-- Rule-table row of a professor: the room is tagged, and the tag is
"professor" or "student" up to case. -/
def professorRule (room : Room) : Bool :=
  match room.role with
  | none => false
  | some tag => equalsIgnoringCase tag "professor" || equalsIgnoringCase tag "student"

/-- Rule-table row of a student: the room is tagged, and the tag is "student"
up to case. -/
def studentRule (room : Room) : Bool :=
  match room.role with
  | none => false
  | some tag => equalsIgnoringCase tag "student"

/-! ## Home: state and handlers -/

/-- The state cells of `Home`. -/
structure HomeState where
  rooms : List Room
  isLoading : Bool
  selectedRoomId : Option Nat
  selectedTime : Option String
  snackbar : Snackbar
deriving DecidableEq, Repr

/-- The state of `Home` when it mounts (the `useState` initial values). -/
def mountState : HomeState :=
  { rooms := [], isLoading := false, selectedRoomId := none, selectedTime := none,
    snackbar := { isOpen := false, message := "", severity := Severity.success } }

/-- How `GET /roomList` ends inside `fetchRooms`: the room array is read, or
the try block throws (transport failure, non-ok status, unreadable body). -/
inductive RoomListResult where
  | loaded (data : List Room)
  | failed
deriving DecidableEq, Repr

/-- The effect of `fetchRooms` (Home.js 50-68) once it has finished. -/
def fetchRooms (result : RoomListResult) (s : HomeState) : HomeState :=
  match result with
  | RoomListResult.loaded data => { s with rooms := data, isLoading := false }
  | RoomListResult.failed =>
    { s with
      snackbar := { isOpen := true, message := "Could not load rooms. Please try again.",
                    severity := Severity.error },
      isLoading := false }

/-- The derived `selectedRoom`: the first room of the filtered list whose id
is the selected one (`filteredRooms.find`). -/
def selectedRoom (userRole : String) (s : HomeState) : Option Room :=
  (filteredRooms s.rooms userRole).find? (fun room => decide (some room.id = s.selectedRoomId))

/-- The handler `handleCloseSnackbar` (Home.js 75-80). -/
def handleCloseSnackbar (reason : Option String) (s : HomeState) : HomeState :=
  if reason = some "clickaway" then s
  else { s with snackbar := { s.snackbar with isOpen := false } }

/-- The handler `handleRoomClick` (Home.js 84-91). -/
def handleRoomClick (roomId : Nat) (s : HomeState) : HomeState :=
  { s with
    selectedTime := if s.selectedRoomId ≠ some roomId then none else s.selectedTime,
    selectedRoomId := if s.selectedRoomId = some roomId then none else some roomId }

/-- The handler `handleTimeSlotClick` (Home.js 93-96). -/
def handleTimeSlotClick (time : String) (s : HomeState) : HomeState :=
  { s with selectedTime := if s.selectedTime = some time then none else some time }

/-- The handler `handleCancelBooking` (Home.js 148-150). -/
def handleCancelBooking (s : HomeState) : HomeState :=
  { s with selectedTime := none }

/-- The `onClick` of a time-slot button (Home.js 235):
`!isBooked && handleTimeSlotClick(time.timeSlot)`. -/
def timeSlotButtonClick (time : AvailabilitySlot) (s : HomeState) : HomeState :=
  if time.isBooked then s else handleTimeSlotClick time.timeSlot s

/-- The callback of `availability.map` in `handleConfirmBooking`
(Home.js 116-121): a slot labelled with the selected time becomes booked. -/
def markBooked (selectedTime : Option String) (x : AvailabilitySlot) : AvailabilitySlot :=
  if some x.timeSlot = selectedTime then { x with isBooked := true } else x

/-- Replace the first element satisfying `p` by its image under `f`. This is
the effect on the `rooms` array of mutating, in place, the object that
`find` returned. -/
def updateFirst (p : Room → Bool) (f : Room → Room) : List Room → List Room
  | [] => []
  | room :: rest => if p room then f room :: rest else room :: updateFirst p f rest

/-- The message of the TypeError raised by reading `availability` of an
undefined `selectedRoom` (engine wording). -/
def undefinedRoomMessage : String :=
  "Cannot read properties of undefined (reading \x27availability\x27)"

/-- The handler `handleConfirmBooking` (Home.js 98-146), given how the
request to `/confirmBooking` ended. -/
def handleConfirmBooking (userRole : String) (result : FetchResult) (s : HomeState) :
    HomeState :=
  match result with
  | FetchResult.rejected message =>
    { s with
      snackbar := { isOpen := true,
                    message := if message = "" then
                        "An unexpected error occurred during booking." else message,
                    severity := Severity.error } }
  | FetchResult.resolved response =>
    if response.ok then
      match selectedRoom userRole s with
      | none =>
        { s with
          snackbar := { isOpen := true, message := undefinedRoomMessage,
                        severity := Severity.error } }
      | some room =>
        { s with
          rooms := updateFirst
            (fun r => roomVisible userRole r && decide (some r.id = s.selectedRoomId))
            (fun r => { r with availability := r.availability.map (markBooked s.selectedTime) })
            s.rooms,
          selectedTime := none,
          snackbar := { isOpen := true,
                        message := "Booking confirmed for " ++ room.name ++ " at "
                          ++ templateText s.selectedTime ++ "!",
                        severity := Severity.success } }
    else
      { s with
        snackbar := { isOpen := true,
                      message := "Booking failed: " ++ toString response.status ++ " - "
                        ++ response.text,
                      severity := Severity.error } }

/-! ## Home: the actions the rendered screen offers -/

/-- A user action on the rendered booking screen. Buttons are addressed by
their position in the list they are rendered from. -/
inductive Action where
  | roomButton (i : Nat)
  | timeSlotButton (k : Nat)
  | confirm (result : FetchResult)
  | cancel
  | closeSnackbar (reason : Option String)
deriving DecidableEq, Repr

/-- One action on the screen rendered from `s` (Home.js 190-270); `none` when
the screen does not render the control. Room buttons come from
`filteredRooms`, time-slot buttons from `selectedRoom.availability`, and the
Confirm and Cancel buttons need `selectedRoom && selectedTime`. -/
def step (userRole : String) (s : HomeState) : Action → Option HomeState
  | Action.roomButton i =>
    match (filteredRooms s.rooms userRole)[i]? with
    | none => none
    | some room => some (handleRoomClick room.id s)
  | Action.timeSlotButton k =>
    match selectedRoom userRole s with
    | none => none
    | some room =>
      match room.availability[k]? with
      | none => none
      | some time => some (timeSlotButtonClick time s)
  | Action.confirm result =>
    match selectedRoom userRole s with
    | none => none
    | some _ =>
      if truthy s.selectedTime then some (handleConfirmBooking userRole result s) else none
  | Action.cancel =>
    match selectedRoom userRole s with
    | none => none
    | some _ => if truthy s.selectedTime then some (handleCancelBooking s) else none
  | Action.closeSnackbar reason => some (handleCloseSnackbar reason s)

/-- Run a sequence of actions, failing at the first one not offered. -/
def run (userRole : String) (s : HomeState) : List Action → Option HomeState
  | [] => some s
  | a :: rest =>
    match step userRole s a with
    | none => none
    | some s1 => run userRole s1 rest

/-- The state after the mount effect: `fetchRooms` ran once from `mountState`. -/
def loadedState (result : RoomListResult) : HomeState :=
  fetchRooms result mountState

/-- The states the booking screen can reach after the room list was fetched. -/
def Reachable (userRole : String) (result : RoomListResult) (s : HomeState) : Prop :=
  ∃ actions : List Action, run userRole (loadedState result) actions = some s

/-- The selection names a free slot: when a visible room is selected and a
time is selected, that room has a slot with this label that is not booked. -/
def FreeSlotSelected (userRole : String) (s : HomeState) : Prop :=
  ∀ (R : Room) (t : String), selectedRoom userRole s = some R → s.selectedTime = some t →
    ∃ x ∈ R.availability, x.timeSlot = t ∧ x.isBooked = false

/-- The selection is visible: no room is selected, or the selected id is the
id of a room of the filtered list. -/
def SelectionVisible (userRole : String) (s : HomeState) : Prop :=
  s.selectedRoomId = none ∨
    ∃ room ∈ filteredRooms s.rooms userRole, s.selectedRoomId = some room.id

/-! ## LoginPage -/

/-- The JSON body of `POST /login`. -/
structure LoginPayload where
  email : String
  password : String
deriving DecidableEq, Repr

/-- The response to `POST /login`: status code and the outcome of
`response.json()`, an error message when the body does not parse. -/
structure LoginResponse where
  status : Nat
  json : Except String JsonObject

/-- The `response.ok` flag of a login response. -/
def LoginResponse.ok (response : LoginResponse) : Bool :=
  decide (200 ≤ response.status) && decide (response.status ≤ 299)

/-- How the awaited `fetch` of `loginApiCall` ends. -/
inductive LoginFetch where
  | rejected (message : String)
  | resolved (response : LoginResponse)

/-- The value `loginApiCall` returns: `{ success, user }`. -/
structure LoginResult where
  success : Bool
  user : User
deriving DecidableEq, Repr

/-- The state cells of `LoginPage`. -/
structure LoginState where
  email : String
  password : String
  loading : Bool
  user : Option User
  snackbar : Snackbar
deriving DecidableEq, Repr

/-- The state of `LoginPage` when it mounts. -/
def loginMountState : LoginState :=
  { email := "", password := "", loading := false, user := none,
    snackbar := { isOpen := false, message := "", severity := Severity.error } }

/-- The function `loginApiCall` (LoginPage.jsx 42-71) against a network that
answers each payload: the returned value or the message of the thrown error,
together with the requests sent. -/
def loginApiCall (network : LoginPayload → LoginFetch) (userEmail userPassword : String) :
    Except String LoginResult × List LoginPayload :=
  let payload : LoginPayload := { email := userEmail, password := userPassword }
  let outcome : Except String LoginResult :=
    match network payload with
    | LoginFetch.rejected message => Except.error message
    | LoginFetch.resolved response =>
      if !response.ok then
        match response.json with
        | Except.error message => Except.error message
        | Except.ok errorData =>
          if truthy errorData.message then Except.error (templateText errorData.message)
          else Except.error ("Login failed with status: " ++ toString response.status)
      else
        match response.json with
        | Except.error message => Except.error message
        | Except.ok userData => Except.ok { success := true, user := userData }
  (outcome, [payload])

/-- The handler `handleSubmit` (LoginPage.jsx 74-100): the state it leaves
and the requests it sent. -/
def handleSubmit (network : LoginPayload → LoginFetch) (s : LoginState) :
    LoginState × List LoginPayload :=
  let s1 : LoginState :=
    { s with loading := true,
             snackbar := { isOpen := false, message := "", severity := Severity.error } }
  if s.email = "" ∨ s.password = "" then
    ({ s1 with
       snackbar := { isOpen := true, message := "Please enter both email and password.",
                     severity := Severity.warning },
       loading := false }, [])
  else
    match loginApiCall network s.email s.password with
    | (Except.ok result, sent) =>
      ({ (if result.success then { s1 with user := some result.user } else s1) with
         loading := false }, sent)
    | (Except.error message, sent) =>
      ({ s1 with
         snackbar := { isOpen := true, message := message, severity := Severity.error },
         loading := false }, sent)

/-- What `LoginPage` renders. -/
inductive Screen where
  | login
  | booking (user : User)
deriving DecidableEq, Repr

/-- The choice of `LoginPage` between the form and `Home` (LoginPage.jsx
103-105): `if (user) return <Home user={user} />`. -/
def screen (s : LoginState) : Screen :=
  match s.user with
  | none => Screen.login
  | some u => Screen.booking u

/-- The `userRole` computed by the rendered `Home`, when it is rendered. -/
def screenUserRole (s : LoginState) : Option String :=
  match screen s with
  | Screen.login => none
  | Screen.booking u => some (userRole (some u))

/-! ## The role filter meets the rule table -/

theorem charsMatch_iff (as bs : List Char) :
    charsMatch as bs = true ↔ as.map Char.toLower = bs.map Char.toLower := by
  induction as generalizing bs with
  | nil => cases bs <;> simp [charsMatch]
  | cons a as ih => cases bs <;> simp [charsMatch, ih]

theorem toLowerCase_eq_iff (a b : String) :
    toLowerCase a = toLowerCase b ↔ equalsIgnoringCase a b = true := by
  unfold toLowerCase equalsIgnoringCase
  rw [charsMatch_iff]
  constructor
  · intro h; exact congrArg String.data h
  · intro h; rw [h]

theorem roomVisible_professor (userRole : String)
    (h : equalsIgnoringCase userRole "professor" = true) (room : Room) :
    roomVisible userRole room = professorRule room := by
  have hu : toLowerCase userRole = toLowerCase professor := (toLowerCase_eq_iff _ _).2 h
  unfold roomVisible professorRule
  cases hr : room.role with
  | none => rfl
  | some tag =>
    by_cases ht : tag = ""
    · subst ht; simp; decide
    · simp only [ht, hu, if_true, if_false]
      simp only [toLowerCase_eq_iff, professor, student]
      cases equalsIgnoringCase tag "professor" <;> cases equalsIgnoringCase tag "student" <;> rfl

theorem roomVisible_student (userRole : String)
    (h : equalsIgnoringCase userRole "student" = true) (room : Room) :
    roomVisible userRole room = studentRule room := by
  have hu : toLowerCase userRole = toLowerCase student := (toLowerCase_eq_iff _ _).2 h
  have hne : ¬ toLowerCase userRole = toLowerCase professor := by
    rw [hu]; decide
  unfold roomVisible studentRule
  cases hr : room.role with
  | none => rfl
  | some tag =>
    by_cases ht : tag = ""
    · subst ht; simp; decide
    · simp only [ht, hne, if_false]
      simp only [toLowerCase_eq_iff, student]
      cases equalsIgnoringCase tag "student" <;> rfl

theorem roomVisible_other (userRole : String)
    (h : equalsIgnoringCase userRole "professor" = false) (room : Room) :
    roomVisible userRole room = studentRule room := by
  have hne : ¬ toLowerCase userRole = toLowerCase professor := by
    intro hu
    have := (toLowerCase_eq_iff userRole professor).1 hu
    simp only [professor] at this
    rw [h] at this
    cases this
  unfold roomVisible studentRule
  cases hr : room.role with
  | none => rfl
  | some tag =>
    by_cases ht : tag = ""
    · subst ht; simp; decide
    · simp only [ht, hne, if_false]
      simp only [toLowerCase_eq_iff, student]
      cases equalsIgnoringCase tag "student" <;> rfl

/-- C1. The visibility filter keeps, in the original order, exactly the rooms
of the rule table: an untagged room is never kept; for a user whose role is
"professor" up to case the kept rooms are those tagged "professor" or
"student" up to case; for a user whose role is "student" up to case they are
those tagged "student" up to case, as they are for every user role that is
not "professor" up to case. -/
theorem filteredRooms_rule_table (rooms : List Room) (userRole : String) :
    List.Sublist (filteredRooms rooms userRole) rooms ∧
    (∀ room, room.role = none → room ∉ filteredRooms rooms userRole) ∧
    (equalsIgnoringCase userRole "professor" = true →
      filteredRooms rooms userRole = rooms.filter professorRule) ∧
    (equalsIgnoringCase userRole "student" = true →
      filteredRooms rooms userRole = rooms.filter studentRule) ∧
    (equalsIgnoringCase userRole "professor" = false →
      filteredRooms rooms userRole = rooms.filter studentRule) := by
  refine ⟨List.filter_sublist rooms, ?_, ?_, ?_, ?_⟩
  · intro room hrole hmem
    have := (List.mem_filter.1 hmem).2
    simp [roomVisible, hrole] at this
  · intro h
    exact List.filter_congr (fun room _ => roomVisible_professor userRole h room)
  · intro h
    exact List.filter_congr (fun room _ => roomVisible_student userRole h room)
  · intro h
    exact List.filter_congr (fun room _ => roomVisible_other userRole h room)

/-! ## Lemmas on texts, `find` and in-place update -/

theorem containsText_append_left (a b part : String) (h : containsText a part) :
    containsText (a ++ b) part := by
  unfold containsText at *
  rw [String.data_append]
  obtain ⟨pre, post, hpp⟩ := h
  exact ⟨pre, post ++ b.data, by rw [← List.append_assoc, hpp]⟩

theorem containsText_append_right (a b part : String) (h : containsText b part) :
    containsText (a ++ b) part := by
  unfold containsText at *
  rw [String.data_append]
  obtain ⟨pre, post, hpp⟩ := h
  exact ⟨a.data ++ pre, post, by simp only [List.append_assoc] at hpp ⊢; rw [hpp]⟩

theorem containsText_self (a : String) : containsText a a := by
  unfold containsText
  exact List.infix_refl _

theorem selectedRoom_eq_find (userRole : String) (s : HomeState) :
    selectedRoom userRole s =
      s.rooms.find? (fun r => roomVisible userRole r && decide (some r.id = s.selectedRoomId)) := by
  unfold selectedRoom filteredRooms
  rw [List.find?_filter]
  congr 1
  funext r
  cases roomVisible userRole r <;> simp

theorem updateFirst_length (p : Room → Bool) (f : Room → Room) (rooms : List Room) :
    (updateFirst p f rooms).length = rooms.length := by
  induction rooms with
  | nil => rfl
  | cons r rest ih =>
    unfold updateFirst
    split <;> simp [ih]

theorem updateFirst_spec (p : Room → Bool) (f : Room → Room) (rooms : List Room) (R : Room)
    (h : rooms.find? p = some R) :
    ∃ i : Nat, rooms[i]? = some R ∧ (updateFirst p f rooms)[i]? = some (f R) ∧
      ∀ j : Nat, j ≠ i → (updateFirst p f rooms)[j]? = rooms[j]? := by
  induction rooms with
  | nil => simp at h
  | cons r rest ih =>
    unfold updateFirst
    by_cases hp : p r = true
    · rw [List.find?_cons_of_pos _ hp] at h
      cases h
      refine ⟨0, by simp, by simp [hp], ?_⟩
      intro j hj
      cases j with
      | zero => exact absurd rfl hj
      | succ j => simp [hp]
    · rw [List.find?_cons_of_neg _ hp] at h
      obtain ⟨i, h1, h2, h3⟩ := ih h
      refine ⟨i + 1, by simpa using h1, by simpa [hp] using h2, ?_⟩
      intro j hj
      cases j with
      | zero => simp [hp]
      | succ j =>
        have : j ≠ i := fun e => hj (by rw [e])
        simpa [hp] using h3 j this

theorem updateFirst_visible_ids (userRole : String) (p : Room → Bool) (f : Room → Room)
    (hf : ∀ r, (f r).id = r.id ∧ (f r).role = r.role) (rooms : List Room) (roomId : Nat) :
    (∃ r ∈ filteredRooms (updateFirst p f rooms) userRole, r.id = roomId) ↔
      (∃ r ∈ filteredRooms rooms userRole, r.id = roomId) := by
  have hvis : ∀ r, roomVisible userRole (f r) = roomVisible userRole r := by
    intro r
    unfold roomVisible
    rw [(hf r).2]
  induction rooms with
  | nil => simp [updateFirst]
  | cons r rest ih =>
    unfold updateFirst
    unfold filteredRooms at ih ⊢
    by_cases hp : p r = true
    · simp only [hp, if_true, List.filter_cons, hvis]
      by_cases hv : roomVisible userRole r = true
      · simp [hv, (hf r).1]
      · simp [hv]
    · simp only [hp, Bool.false_eq_true, if_false, List.filter_cons]
      by_cases hv : roomVisible userRole r = true
      · simp only [hv, if_true, List.mem_cons, exists_eq_or_imp, ih]
      · simpa [hv] using ih

/-! ## Booking confirmation -/

/-- C2. A confirmation answered with a 2xx status, with room `R` selected and
time `t` selected, books every slot of `R` labelled `t`, leaves every other
slot of `R` and every other room as they were, clears `selectedTime`, keeps
`selectedRoomId`, and opens a success notification whose message contains
the name of `R` and `t`. -/
theorem handleConfirmBooking_success (userRole : String) (s : HomeState) (response : Response)
    (R : Room) (t : String) (hok : response.ok = true)
    (hR : selectedRoom userRole s = some R) (ht : s.selectedTime = some t) :
    (handleConfirmBooking userRole (FetchResult.resolved response) s).selectedTime = none ∧
    (handleConfirmBooking userRole (FetchResult.resolved response) s).selectedRoomId
      = s.selectedRoomId ∧
    (handleConfirmBooking userRole (FetchResult.resolved response) s).snackbar.isOpen = true ∧
    (handleConfirmBooking userRole (FetchResult.resolved response) s).snackbar.severity
      = Severity.success ∧
    containsText
      (handleConfirmBooking userRole (FetchResult.resolved response) s).snackbar.message R.name ∧
    containsText
      (handleConfirmBooking userRole (FetchResult.resolved response) s).snackbar.message t ∧
    (handleConfirmBooking userRole (FetchResult.resolved response) s).rooms.length
      = s.rooms.length ∧
    ∃ i : Nat, s.rooms[i]? = some R ∧
      (∀ j : Nat, j ≠ i →
        (handleConfirmBooking userRole (FetchResult.resolved response) s).rooms[j]?
          = s.rooms[j]?) ∧
      ∃ R1 : Room,
        (handleConfirmBooking userRole (FetchResult.resolved response) s).rooms[i]? = some R1 ∧
        R1.id = R.id ∧ R1.name = R.name ∧ R1.role = R.role ∧
        R1.availability.length = R.availability.length ∧
        ∀ (k : Nat) (x : AvailabilitySlot), R.availability[k]? = some x →
          R1.availability[k]? =
            some (if x.timeSlot = t then { x with isBooked := true } else x) := by
  have hfind := hR
  rw [selectedRoom_eq_find] at hfind
  obtain ⟨i, hi, hi1, hother⟩ := updateFirst_spec
    (fun r => roomVisible userRole r && decide (some r.id = s.selectedRoomId))
    (fun r => { r with availability := r.availability.map (markBooked s.selectedTime) })
    s.rooms R hfind
  simp only [handleConfirmBooking, hok, if_true, hR]
  refine ⟨trivial, trivial, trivial, trivial, ?_, ?_, updateFirst_length _ _ _, i, hi, hother,
    _, hi1, rfl, rfl, rfl, by simp, ?_⟩
  · apply containsText_append_left
    apply containsText_append_left
    apply containsText_append_left
    apply containsText_append_right
    exact containsText_self _
  · apply containsText_append_left
    apply containsText_append_right
    rw [ht]
    exact containsText_self _
  · intro k x hx
    simp only [List.getElem?_map, hx, Option.map_some', markBooked, ht, Option.some.injEq]

/-- Witness of C2: room "Alpha" with slot "2:00 PM" selected, answer 200. -/
theorem handleConfirmBooking_success_witness :
    (handleConfirmBooking "student" (FetchResult.resolved ⟨200, ""⟩)
      { rooms := [⟨1, "Alpha", some "student", [⟨"10:00 AM", true⟩, ⟨"2:00 PM", false⟩]⟩],
        isLoading := false, selectedRoomId := some 1, selectedTime := some "2:00 PM",
        snackbar := ⟨false, "", Severity.success⟩ }).selectedTime = none :=
  (handleConfirmBooking_success "student"
      { rooms := [⟨1, "Alpha", some "student", [⟨"10:00 AM", true⟩, ⟨"2:00 PM", false⟩]⟩],
        isLoading := false, selectedRoomId := some 1, selectedTime := some "2:00 PM",
        snackbar := ⟨false, "", Severity.success⟩ }
      ⟨200, ""⟩ ⟨1, "Alpha", some "student", [⟨"10:00 AM", true⟩, ⟨"2:00 PM", false⟩]⟩
      "2:00 PM" (by decide) (by decide) rfl).1

/-- C6. A confirmation answered with a non-success status leaves
`selectedRoomId`, `selectedTime` and the rooms unchanged and opens an error
notification whose message contains the status code and the body text. -/
theorem handleConfirmBooking_failure (userRole : String) (s : HomeState) (response : Response)
    (hok : response.ok = false) :
    (handleConfirmBooking userRole (FetchResult.resolved response) s).selectedRoomId
      = s.selectedRoomId ∧
    (handleConfirmBooking userRole (FetchResult.resolved response) s).selectedTime
      = s.selectedTime ∧
    (handleConfirmBooking userRole (FetchResult.resolved response) s).rooms = s.rooms ∧
    (handleConfirmBooking userRole (FetchResult.resolved response) s).snackbar.isOpen = true ∧
    (handleConfirmBooking userRole (FetchResult.resolved response) s).snackbar.severity
      = Severity.error ∧
    containsText
      (handleConfirmBooking userRole (FetchResult.resolved response) s).snackbar.message
      (toString response.status) ∧
    containsText
      (handleConfirmBooking userRole (FetchResult.resolved response) s).snackbar.message
      response.text := by
  simp only [handleConfirmBooking, hok, Bool.false_eq_true, if_false]
  refine ⟨trivial, trivial, trivial, trivial, trivial, ?_, ?_⟩
  · apply containsText_append_left
    apply containsText_append_left
    apply containsText_append_right
    exact containsText_self _
  · apply containsText_append_right
    exact containsText_self _

/-- Witness of C6: status 409 with body "slot taken". -/
theorem handleConfirmBooking_failure_witness :
    containsText
      (handleConfirmBooking "student" (FetchResult.resolved ⟨409, "slot taken"⟩)
        { rooms := [⟨1, "Alpha", some "student", [⟨"2:00 PM", false⟩]⟩],
          isLoading := false, selectedRoomId := some 1, selectedTime := some "2:00 PM",
          snackbar := ⟨false, "", Severity.success⟩ }).snackbar.message
      (toString 409) :=
  (handleConfirmBooking_failure "student"
      { rooms := [⟨1, "Alpha", some "student", [⟨"2:00 PM", false⟩]⟩],
        isLoading := false, selectedRoomId := some 1, selectedTime := some "2:00 PM",
        snackbar := ⟨false, "", Severity.success⟩ }
      ⟨409, "slot taken"⟩ (by decide)).2.2.2.2.2.1

/-! ## Selection handlers -/

/-- C5. Clicking room `A` and then a different room `B` ends with no time
selected, whatever was selected before and whatever time slots were clicked
in between; and any room click whose argument differs from the current
`selectedRoomId` clears `selectedTime`. -/
theorem room_change_clears_time (s : HomeState) (A B : Nat) (times : List String)
    (hAB : A ≠ B) :
    (handleRoomClick B (handleRoomClick A s)).selectedTime = none ∧
    (handleRoomClick B
      (times.foldl (fun st time => handleTimeSlotClick time st)
        (handleRoomClick A s))).selectedTime = none ∧
    (∀ (s0 : HomeState) (roomId : Nat), s0.selectedRoomId ≠ some roomId →
      (handleRoomClick roomId s0).selectedTime = none) := by
  have hgen : ∀ (s0 : HomeState) (roomId : Nat), s0.selectedRoomId ≠ some roomId →
      (handleRoomClick roomId s0).selectedTime = none := by
    intro s0 roomId h
    simp [handleRoomClick, h]
  have hA : (handleRoomClick A s).selectedRoomId ≠ some B := by
    unfold handleRoomClick
    by_cases h : s.selectedRoomId = some A
    · simp [h]
    · simp only [h, if_false, ne_eq, Option.some.injEq]
      exact hAB
  have hfold : ∀ (ts : List String) (st : HomeState),
      (ts.foldl (fun st time => handleTimeSlotClick time st) st).selectedRoomId
        = st.selectedRoomId := by
    intro ts
    induction ts with
    | nil => intro st; rfl
    | cons t ts ih => intro st; rw [List.foldl_cons, ih]; rfl
  refine ⟨hgen _ _ hA, hgen _ _ ?_, hgen⟩
  rw [hfold]
  exact hA

/-- Witness of C5: room 1 then room 2, with a time picked in between. -/
theorem room_change_clears_time_witness :
    (handleRoomClick 2
      (["10:00 AM"].foldl (fun st time => handleTimeSlotClick time st)
        (handleRoomClick 1 mountState))).selectedTime = none :=
  (room_change_clears_time mountState 1 2 ["10:00 AM"] (by decide)).2.1

/-- C9. The time selection is a toggle: a click on `t` deselects when `t` was
selected and selects `t` otherwise; two clicks on an unselected `t` end with
no time selected. -/
theorem handleTimeSlotClick_toggle (t : String) (s : HomeState) :
    (handleTimeSlotClick t s).selectedTime
      = (if s.selectedTime = some t then none else some t) ∧
    (s.selectedTime = some t → (handleTimeSlotClick t s).selectedTime = none) ∧
    (s.selectedTime ≠ some t → (handleTimeSlotClick t s).selectedTime = some t) ∧
    (handleTimeSlotClick t s).selectedRoomId = s.selectedRoomId ∧
    (handleTimeSlotClick t s).rooms = s.rooms ∧
    (s.selectedTime ≠ some t →
      (handleTimeSlotClick t (handleTimeSlotClick t s)).selectedTime = none) := by
  refine ⟨rfl, ?_, ?_, rfl, rfl, ?_⟩
  · intro h
    simp [handleTimeSlotClick, h]
  · intro h
    simp [handleTimeSlotClick, h]
  · intro h
    simp [handleTimeSlotClick, h]

/-- Witness of C9: two clicks on "10:00 AM" from the mount state. -/
theorem handleTimeSlotClick_toggle_witness :
    (handleTimeSlotClick "10:00 AM" (handleTimeSlotClick "10:00 AM" mountState)).selectedTime
      = none :=
  (handleTimeSlotClick_toggle "10:00 AM" mountState).2.2.2.2.2 (by decide)

/-! ## Reachable states -/

theorem selectedRoom_congr (userRole : String) (s s1 : HomeState)
    (hrooms : s1.rooms = s.rooms) (hid : s1.selectedRoomId = s.selectedRoomId) :
    selectedRoom userRole s1 = selectedRoom userRole s := by
  unfold selectedRoom
  rw [hrooms, hid]

theorem selectedRoom_none (userRole : String) (s : HomeState) (h : s.selectedRoomId = none) :
    selectedRoom userRole s = none := by
  unfold selectedRoom
  rw [h]
  simp

theorem handleConfirmBooking_selectedRoomId (userRole : String) (result : FetchResult)
    (s : HomeState) :
    (handleConfirmBooking userRole result s).selectedRoomId = s.selectedRoomId := by
  unfold handleConfirmBooking
  cases result with
  | rejected message => rfl
  | resolved response =>
    simp only
    split
    · split <;> rfl
    · rfl

theorem handleConfirmBooking_cases (userRole : String) (result : FetchResult)
    (s : HomeState) :
    (handleConfirmBooking userRole result s).selectedTime = none ∨
      ((handleConfirmBooking userRole result s).selectedTime = s.selectedTime ∧
        (handleConfirmBooking userRole result s).rooms = s.rooms) := by
  unfold handleConfirmBooking
  cases result with
  | rejected message => exact Or.inr ⟨rfl, rfl⟩
  | resolved response =>
    simp only
    split
    · split
      · exact Or.inr ⟨rfl, rfl⟩
      · exact Or.inl rfl
    · exact Or.inr ⟨rfl, rfl⟩

theorem freeSlotSelected_of_time_none (userRole : String) (s : HomeState)
    (h : s.selectedTime = none) : FreeSlotSelected userRole s := by
  intro R t _ ht
  rw [h] at ht
  cases ht

theorem freeSlotSelected_of_same (userRole : String) (s s1 : HomeState)
    (hrooms : s1.rooms = s.rooms) (hid : s1.selectedRoomId = s.selectedRoomId)
    (htime : s1.selectedTime = s.selectedTime) (h : FreeSlotSelected userRole s) :
    FreeSlotSelected userRole s1 := by
  intro R t hR ht
  rw [selectedRoom_congr userRole s s1 hrooms hid] at hR
  rw [htime] at ht
  exact h R t hR ht

theorem step_freeSlotSelected (userRole : String) (s s1 : HomeState) (a : Action)
    (hstep : step userRole s a = some s1) (h : FreeSlotSelected userRole s) :
    FreeSlotSelected userRole s1 := by
  cases a with
  | roomButton i =>
    simp only [step] at hstep
    split at hstep
    · cases hstep
    · rename_i room _
      cases hstep
      by_cases hsel : s.selectedRoomId = some room.id
      · intro R t hR _
        rw [selectedRoom_none] at hR
        · cases hR
        · simp [handleRoomClick, hsel]
      · apply freeSlotSelected_of_time_none
        simp [handleRoomClick, hsel]
  | timeSlotButton k =>
    simp only [step] at hstep
    split at hstep
    · cases hstep
    · rename_i room hroom
      split at hstep
      · cases hstep
      · rename_i time htime
        cases hstep
        unfold timeSlotButtonClick
        by_cases hb : time.isBooked = true
        · simpa [hb] using h
        · simp only [hb, Bool.false_eq_true, if_false]
          intro R t hR ht
          have hR2 := (selectedRoom_congr userRole s
            (handleTimeSlotClick time.timeSlot s) rfl rfl).symm.trans hR
          rw [hroom] at hR2
          cases hR2
          simp only [handleTimeSlotClick] at ht
          split at ht
          · cases ht
          · cases ht
            exact ⟨time, List.getElem?_mem htime, rfl, by simpa using hb⟩
  | confirm result =>
    simp only [step] at hstep
    split at hstep
    · cases hstep
    · split at hstep
      · cases hstep
        rcases handleConfirmBooking_cases userRole result s with h0 | ⟨h1, h2⟩
        · exact freeSlotSelected_of_time_none _ _ h0
        · exact freeSlotSelected_of_same userRole s _ h2
            (handleConfirmBooking_selectedRoomId userRole result s) h1 h
      · cases hstep
  | cancel =>
    simp only [step] at hstep
    split at hstep
    · cases hstep
    · split at hstep
      · cases hstep
        exact freeSlotSelected_of_time_none _ _ rfl
      · cases hstep
  | closeSnackbar reason =>
    simp only [step] at hstep
    cases hstep
    unfold handleCloseSnackbar
    split
    · exact h
    · exact freeSlotSelected_of_same userRole s _ rfl rfl rfl h

theorem run_invariant (userRole : String) (P : HomeState → Prop)
    (hP : ∀ (s s1 : HomeState) (a : Action), step userRole s a = some s1 → P s → P s1)
    (actions : List Action) :
    ∀ (s s1 : HomeState), run userRole s actions = some s1 → P s → P s1 := by
  induction actions with
  | nil =>
    intro s s1 hrun hs
    simp only [run, Option.some.injEq] at hrun
    rw [← hrun]
    exact hs
  | cons a rest ih =>
    intro s s1 hrun hs
    simp only [run] at hrun
    split at hrun
    · cases hrun
    · rename_i s2 hstep
      exact ih s2 s1 hrun (hP s s2 a hstep hs)

theorem loadedState_selection (result : RoomListResult) :
    (loadedState result).selectedRoomId = none ∧ (loadedState result).selectedTime = none := by
  cases result <;> exact ⟨rfl, rfl⟩

/-- C3. A booked slot cannot become the selected time: the click handler of a
booked slot button leaves the state as it is, and in every state reachable
from the loaded screen, when a visible room is selected and a time `t` is
selected, the selected room has a slot labelled `t` that is not booked. -/
theorem booked_slot_never_selected (userRole : String) (result : RoomListResult) :
    (∀ (time : AvailabilitySlot) (s : HomeState), time.isBooked = true →
      (timeSlotButtonClick time s).selectedRoomId = s.selectedRoomId ∧
      (timeSlotButtonClick time s).selectedTime = s.selectedTime) ∧
    (∀ (s : HomeState), Reachable userRole result s →
      ∀ (R : Room) (t : String), selectedRoom userRole s = some R → s.selectedTime = some t →
        ∃ x ∈ R.availability, x.timeSlot = t ∧ x.isBooked = false) := by
  constructor
  · intro time s hb
    simp [timeSlotButtonClick, hb]
  · intro s hreach
    obtain ⟨actions, hrun⟩ := hreach
    exact run_invariant userRole (FreeSlotSelected userRole) (step_freeSlotSelected userRole)
      actions _ s hrun
      (freeSlotSelected_of_time_none _ _ (loadedState_selection result).2)

theorem step_selectionVisible (userRole : String) (s s1 : HomeState) (a : Action)
    (hstep : step userRole s a = some s1) (h : SelectionVisible userRole s) :
    SelectionVisible userRole s1 := by
  have hsame : ∀ s2 : HomeState, s2.rooms = s.rooms → s2.selectedRoomId = s.selectedRoomId →
      SelectionVisible userRole s2 := by
    intro s2 h1 h2
    unfold SelectionVisible at h ⊢
    rw [h1, h2]
    exact h
  cases a with
  | roomButton i =>
    simp only [step] at hstep
    split at hstep
    · cases hstep
    · rename_i room hroom
      cases hstep
      by_cases hsel : s.selectedRoomId = some room.id
      · left
        simp [handleRoomClick, hsel]
      · right
        exact ⟨room, List.getElem?_mem hroom, by simp [handleRoomClick, hsel]⟩
  | timeSlotButton k =>
    simp only [step] at hstep
    split at hstep
    · cases hstep
    · split at hstep
      · cases hstep
      · rename_i time _
        cases hstep
        apply hsame
        · unfold timeSlotButtonClick; split <;> rfl
        · unfold timeSlotButtonClick; split <;> rfl
  | confirm result =>
    simp only [step] at hstep
    split at hstep
    · cases hstep
    · split at hstep
      · cases hstep
        unfold SelectionVisible at h ⊢
        rw [handleConfirmBooking_selectedRoomId]
        rcases h with h | ⟨room, hmem, hid⟩
        · exact Or.inl h
        · right
          have hex : ∃ r ∈ filteredRooms (handleConfirmBooking userRole result s).rooms userRole,
              r.id = room.id := by
            unfold handleConfirmBooking
            cases result with
            | rejected message => exact ⟨room, hmem, rfl⟩
            | resolved response =>
              simp only
              split
              · split
                · exact ⟨room, hmem, rfl⟩
                · simp only
                  exact (updateFirst_visible_ids userRole _
                    (fun r => { r with
                      availability := r.availability.map (markBooked s.selectedTime) })
                    (fun r => ⟨rfl, rfl⟩) s.rooms room.id).2 ⟨room, hmem, rfl⟩
              · exact ⟨room, hmem, rfl⟩
          obtain ⟨r, hr, hrid⟩ := hex
          exact ⟨r, hr, by rw [hid, hrid]⟩
      · cases hstep
  | cancel =>
    simp only [step] at hstep
    split at hstep
    · cases hstep
    · split at hstep
      · cases hstep
        exact hsame _ rfl rfl
      · cases hstep
  | closeSnackbar reason =>
    simp only [step] at hstep
    cases hstep
    apply hsame
    · unfold handleCloseSnackbar; split <;> rfl
    · unfold handleCloseSnackbar; split <;> rfl

/-- C4. In every state reachable from the loaded screen by the actions the
screen offers, `selectedRoomId` is null or the id of a room of
`filteredRooms` for the role of the user. -/
theorem selection_stays_visible (userRole : String) (result : RoomListResult)
    (s : HomeState) (hreach : Reachable userRole result s) :
    s.selectedRoomId = none ∨
      ∃ room ∈ filteredRooms s.rooms userRole, s.selectedRoomId = some room.id := by
  obtain ⟨actions, hrun⟩ := hreach
  exact run_invariant userRole (SelectionVisible userRole) (step_selectionVisible userRole)
    actions _ s hrun (Or.inl (loadedState_selection result).1)

/-- Witness of C3: room "Alpha" is picked, its booked slot is clicked, then
its free slot "2:00 PM"; the selected time names a free slot. -/
theorem booked_slot_never_selected_witness :
    ∃ x ∈ (Room.mk 1 "Alpha" (some "student")
        [⟨"10:00 AM", true⟩, ⟨"2:00 PM", false⟩]).availability,
      x.timeSlot = "2:00 PM" ∧ x.isBooked = false :=
  (booked_slot_never_selected "student"
      (RoomListResult.loaded
        [⟨1, "Alpha", some "student", [⟨"10:00 AM", true⟩, ⟨"2:00 PM", false⟩]⟩])).2
    { rooms := [⟨1, "Alpha", some "student", [⟨"10:00 AM", true⟩, ⟨"2:00 PM", false⟩]⟩],
      isLoading := false, selectedRoomId := some 1, selectedTime := some "2:00 PM",
      snackbar := ⟨false, "", Severity.success⟩ }
    ⟨[Action.roomButton 0, Action.timeSlotButton 0, Action.timeSlotButton 1], by decide⟩
    ⟨1, "Alpha", some "student", [⟨"10:00 AM", true⟩, ⟨"2:00 PM", false⟩]⟩ "2:00 PM"
    (by decide) rfl

/-- Witness of C4: a professor picks the second visible room. -/
theorem selection_stays_visible_witness :
    (some 3 : Option Nat) = none ∨
      ∃ room ∈ filteredRooms
          [⟨1, "Alpha", some "student", []⟩, ⟨2, "Beta", none, []⟩,
           ⟨3, "Gamma", some "Professor", []⟩] "professor",
        (some 3 : Option Nat) = some room.id :=
  selection_stays_visible "professor"
    (RoomListResult.loaded
      [⟨1, "Alpha", some "student", []⟩, ⟨2, "Beta", none, []⟩,
       ⟨3, "Gamma", some "Professor", []⟩])
    { rooms := [⟨1, "Alpha", some "student", []⟩, ⟨2, "Beta", none, []⟩,
                ⟨3, "Gamma", some "Professor", []⟩],
      isLoading := false, selectedRoomId := some 3, selectedTime := none,
      snackbar := ⟨false, "", Severity.success⟩ }
    ⟨[Action.roomButton 1], by decide⟩

/-- Witness of C1: a professor, written in capitals, sees the rooms tagged
"Student" and "PROFESSOR" and not the untagged one. -/
theorem filteredRooms_rule_table_witness :
    filteredRooms
        [⟨1, "Alpha", some "Student", []⟩, ⟨2, "Beta", none, []⟩,
         ⟨3, "Gamma", some "PROFESSOR", []⟩] "PROFESSOR"
      = List.filter professorRule
        [⟨1, "Alpha", some "Student", []⟩, ⟨2, "Beta", none, []⟩,
         ⟨3, "Gamma", some "PROFESSOR", []⟩] :=
  (filteredRooms_rule_table
      [⟨1, "Alpha", some "Student", []⟩, ⟨2, "Beta", none, []⟩,
       ⟨3, "Gamma", some "PROFESSOR", []⟩] "PROFESSOR").2.2.1 (by decide)

/-- C10, evaluated on the code: a room without a role is shown to nobody, for
a student and for a professor alike, against the comment above the filter. -/
theorem untagged_room_is_hidden :
    filteredRooms [⟨1, "Alpha", none, []⟩] "student" = [] ∧
    filteredRooms [⟨1, "Alpha", none, []⟩] "professor" = [] ∧
    ∀ (rooms : List Room) (userRole : String) (room : Room), room.role = none →
      room ∉ filteredRooms rooms userRole := by
  refine ⟨by decide, by decide, ?_⟩
  intro rooms userRole room hrole hmem
  have := (List.mem_filter.1 hmem).2
  simp [roomVisible, hrole] at this

/-! ## Login -/

/-- C7. A submission with an empty email or an empty password sends no
request, opens a warning notification, leaves `user` and the rendered screen
as they were and ends with `loading = false`; a request is sent only when
both fields are non-empty, and then it is the one request carrying them. -/
theorem handleSubmit_validation (network : LoginPayload → LoginFetch) (s : LoginState) :
    (s.email = "" ∨ s.password = "" →
      (handleSubmit network s).2 = [] ∧
      (handleSubmit network s).1.snackbar.isOpen = true ∧
      (handleSubmit network s).1.snackbar.severity = Severity.warning ∧
      (handleSubmit network s).1.user = s.user ∧
      screen (handleSubmit network s).1 = screen s ∧
      (handleSubmit network s).1.loading = false) ∧
    ((handleSubmit network s).2 ≠ [] → s.email ≠ "" ∧ s.password ≠ "") ∧
    (s.email ≠ "" ∧ s.password ≠ "" →
      (handleSubmit network s).2 = [{ email := s.email, password := s.password }]) := by
  refine ⟨?_, ?_, ?_⟩
  · intro h
    simp only [handleSubmit, h, if_true]
    exact ⟨trivial, trivial, trivial, trivial, rfl, trivial⟩
  · intro hsent
    by_contra hne
    have h : s.email = "" ∨ s.password = "" := by
      by_cases he : s.email = ""
      · exact Or.inl he
      · by_cases hp : s.password = ""
        · exact Or.inr hp
        · exact absurd ⟨he, hp⟩ hne
    apply hsent
    simp only [handleSubmit, h, if_true]
  · intro h
    have hno : ¬ (s.email = "" ∨ s.password = "") := by
      intro hor
      cases hor with
      | inl he => exact h.1 he
      | inr hp => exact h.2 hp
    simp only [handleSubmit, hno, if_false, loginApiCall]
    split <;> simp_all

/-- Witness of C7: a submission with an empty password sends nothing. -/
theorem handleSubmit_validation_witness :
    (handleSubmit (fun _ => LoginFetch.rejected "offline")
      { loginMountState with email := "a@b.com" }).2 = [] :=
  ((handleSubmit_validation (fun _ => LoginFetch.rejected "offline")
      { loginMountState with email := "a@b.com" }).1 (Or.inr rfl)).1

/-- C8 as stated fails: a login answered with status 200 and a user object
that carries no role reaches the booking screen with that user, yet the
`userRole` of the booking screen is "student", which is not the role of the
user object. -/
theorem login_userRole_counterexample :
    ¬ ∀ (network : LoginPayload → LoginFetch) (s : LoginState) (response : LoginResponse)
        (u : User),
        s.email ≠ "" → s.password ≠ "" →
        network { email := s.email, password := s.password } = LoginFetch.resolved response →
        response.ok = true → response.json = Except.ok u →
        screen (handleSubmit network s).1 = Screen.booking u ∧
          screenUserRole (handleSubmit network s).1 = u.role := by
  intro h
  have h1 := h (fun _ => LoginFetch.resolved ⟨200, Except.ok ⟨some "42", none, none⟩⟩)
    { loginMountState with email := "a@b.com", password := "x" }
    ⟨200, Except.ok ⟨some "42", none, none⟩⟩ ⟨some "42", none, none⟩
    (by decide) (by decide) rfl (by decide) rfl
  revert h1
  decide

/-- C8, amended. A login with non-empty email and password that the server
answers with a success status and a user object `u` sends one request, ends
with `loading = false` and renders the booking screen with `u`; the
`userRole` of the booking screen is `u.role` when that is a non-empty string
and "student" when it is absent or empty. -/
theorem login_success_userRole (network : LoginPayload → LoginFetch) (s : LoginState)
    (response : LoginResponse) (u : User)
    (hemail : s.email ≠ "") (hpassword : s.password ≠ "")
    (hnet : network { email := s.email, password := s.password }
      = LoginFetch.resolved response)
    (hok : response.ok = true) (hjson : response.json = Except.ok u) :
    (handleSubmit network s).2 = [{ email := s.email, password := s.password }] ∧
    (handleSubmit network s).1.loading = false ∧
    screen (handleSubmit network s).1 = Screen.booking u ∧
    (∀ r : String, u.role = some r → r ≠ "" →
      screenUserRole (handleSubmit network s).1 = some r) ∧
    (truthy u.role = false → screenUserRole (handleSubmit network s).1 = some "student") := by
  have hno : ¬ (s.email = "" ∨ s.password = "") := by
    intro hor
    cases hor with
    | inl he => exact hemail he
    | inr hp => exact hpassword hp
  have hrun : handleSubmit network s =
      ({ s with loading := false,
                snackbar := { isOpen := false, message := "", severity := Severity.error },
                user := some u },
        [{ email := s.email, password := s.password }]) := by
    simp [handleSubmit, hno, loginApiCall, hnet, hok, hjson]
  rw [hrun]
  refine ⟨rfl, rfl, rfl, ?_, ?_⟩
  · intro r hr hne
    simp [screenUserRole, screen, userRole, hr, hne]
  · intro hfalsy
    cases hrole : u.role with
    | none => simp [screenUserRole, screen, userRole, hrole, student]
    | some r =>
      rw [hrole] at hfalsy
      have : r = "" := by simpa [truthy] using hfalsy
      simp [screenUserRole, screen, userRole, hrole, this, student]

/-- Witness of C8, amended: the server answers 200 with a professor. -/
theorem login_success_userRole_witness :
    screenUserRole
      (handleSubmit
        (fun _ => LoginFetch.resolved ⟨200, Except.ok ⟨some "42", some "professor", none⟩⟩)
        { loginMountState with email := "a@b.com", password := "x" }).1
      = some "professor" :=
  (login_success_userRole
      (fun _ => LoginFetch.resolved ⟨200, Except.ok ⟨some "42", some "professor", none⟩⟩)
      { loginMountState with email := "a@b.com", password := "x" }
      ⟨200, Except.ok ⟨some "42", some "professor", none⟩⟩ ⟨some "42", some "professor", none⟩
      (by decide) (by decide) rfl (by decide) rfl).2.2.2.1 "professor" rfl (by decide)

end StudyRoomBooking
